import Mathlib

/-!
Shallow embedding of `src/date-factory.js` of the xb-date repository.

A JavaScript `Date` holds a time value: either an integer count of
milliseconds since the Unix epoch, clipped to magnitude at most
8 640 000 000 000 000, or NaN (an Invalid Date).  We model a time value as
`Option Int`, with `none` standing for NaN / Invalid Date.  Calendar-field
extraction (`getUTCFullYear`, `getUTCMonth`, ...) and construction
(`Date.UTC`, the multi-argument `new Date(...)` constructor, the
`setUTCFullYear` / `setUTCMonth` / `setUTCDate` mutators) follow the
ECMAScript specification of the date primitive, including:
  * floor division/modulo in the day and time decompositions
    (`Int./` and `Int.%` are floor operations for the positive literal
    divisors used here);
  * the proleptic Gregorian leap rule;
  * the remapping of constructor years 0..99 to 1900..1999
    (`MakeFullYear`), which applies to `Date.UTC` and to the
    multi-argument constructor but not to the setters;
  * `TimeClip`, which turns out-of-range results into NaN.

The multi-argument `new Date(y, mo, d, h, mi, s, ms)` constructor used by
the file-local `add` helper interprets its arguments in the host's local
timezone; the host timezone is modelled as UTC (the library's own
documentation expects UTC inputs throughout).

String-valued inputs of the library (comparison operators, precisions) are
modelled as `String`; date-like inputs are modelled by the time value the
primitive parses them to (`none` for malformed/unparseable input).
-/

/-- Milliseconds per day (ECMAScript msPerDay). -/
def msPerDay : Int := 86400000

/-- Milliseconds per hour. -/
def msPerHour : Int := 3600000

/-- Milliseconds per minute. -/
def msPerMinute : Int := 60000

/-- Milliseconds per second. -/
def msPerSecond : Int := 1000

/-- ECMAScript TimeClip: time values of magnitude beyond 8.64e15 ms become NaN. -/
def timeClip (t : Int) : Option Int :=
  if t.natAbs ≤ 8640000000000000 then some t else none

/-- Gregorian leap-year rule (ECMAScript DaysInYear). -/
def isLeap (y : Int) : Bool := y % 4 == 0 && (y % 100 != 0 || y % 400 == 0)

/-- ECMAScript DayFromYear: day number of January 1 of year `y`. -/
def daysFromYear (y : Int) : Int :=
  365 * (y - 1970) + (y - 1969) / 4 - (y - 1901) / 100 + (y - 1601) / 400

/-- Number of days from the start of a 400-year era to the start of year-of-era `j`
    (the era starts at a year divisible by 400). -/
def doeOfYoe (j : Int) : Int :=
  365 * j + (j + 3) / 4 - (j + 99) / 100 + (j + 399) / 400

/-- ECMAScript YearFromTime (on day numbers): the unique year `y` with
    `daysFromYear y ≤ D < daysFromYear (y + 1)`, computed by decomposing into
    146097-day eras and correcting a day-of-era estimate. -/
def yearFromDay (D : Int) : Int :=
  let z := D + 719528
  let era := z / 146097
  let doe := z % 146097
  let guess := min (doe / 365) 399
  400 * era + (if doeOfYoe guess ≤ doe then guess else guess - 1)

/-- ECMAScript DayWithinYear (on day numbers). -/
def dayWithinYear (D : Int) : Int := D - daysFromYear (yearFromDay D)

/-- First day-of-year of month `m` (0-based) in a year with `L` leap days
    (ECMAScript month table, InLeapYear(t) = L); `m = 12` gives the year
    length, other values are never used. -/
def cumMonthL (L m : Int) : Int :=
  if m ≤ 0 then 0
  else if m = 1 then 31
  else if m = 2 then 59 + L
  else if m = 3 then 90 + L
  else if m = 4 then 120 + L
  else if m = 5 then 151 + L
  else if m = 6 then 181 + L
  else if m = 7 then 212 + L
  else if m = 8 then 243 + L
  else if m = 9 then 273 + L
  else if m = 10 then 304 + L
  else if m = 11 then 334 + L
  else 365 + L

/-- First day-of-year of month `m` (0-based). -/
def cumMonth (leap : Bool) (m : Int) : Int :=
  cumMonthL (if leap then 1 else 0) m

/-- ECMAScript MonthFromTime on a day-within-year, with `L` leap days. -/
def monthFromDoyL (L doy : Int) : Int :=
  if doy < 31 then 0
  else if doy < 59 + L then 1
  else if doy < 90 + L then 2
  else if doy < 120 + L then 3
  else if doy < 151 + L then 4
  else if doy < 181 + L then 5
  else if doy < 212 + L then 6
  else if doy < 243 + L then 7
  else if doy < 273 + L then 8
  else if doy < 304 + L then 9
  else if doy < 334 + L then 10
  else 11

/-- ECMAScript MonthFromTime on a day-within-year. -/
def monthFromDoy (leap : Bool) (doy : Int) : Int :=
  monthFromDoyL (if leap then 1 else 0) doy

/-- ECMAScript MonthFromTime on day numbers (0-based month, as `getUTCMonth`). -/
def monthOfDay (D : Int) : Int :=
  monthFromDoy (isLeap (yearFromDay D)) (dayWithinYear D)

/-- ECMAScript DateFromTime on day numbers (1-based day of month, as `getUTCDate`). -/
def dateOfDay (D : Int) : Int :=
  dayWithinYear D - cumMonth (isLeap (yearFromDay D)) (monthOfDay D) + 1

/-- ECMAScript MakeDay: day number for year `y`, (possibly overflowing) 0-based
    month `m` and 1-based day `d`; months roll into years, days are unconstrained. -/
def makeDay (y m d : Int) : Int :=
  let ym := y + m / 12
  let mn := m % 12
  daysFromYear ym + cumMonth (isLeap ym) mn + d - 1

/-- ECMAScript Day. -/
def dayOf (t : Int) : Int := t / msPerDay

/-- ECMAScript HourFromTime. -/
def hourFromTime (t : Int) : Int := (t / msPerHour) % 24

/-- ECMAScript MinFromTime. -/
def minFromTime (t : Int) : Int := (t / msPerMinute) % 60

/-- ECMAScript SecFromTime. -/
def secFromTime (t : Int) : Int := (t / msPerSecond) % 60

/-- ECMAScript msFromTime. -/
def msFromTime (t : Int) : Int := t % msPerSecond

/-- ECMAScript WeekDay (0 = Sunday). -/
def weekdayOf (t : Int) : Int := (dayOf t + 4) % 7

/-- ECMAScript MakeFullYear: constructor years 0..99 are read as 1900..1999.
    Applies to `Date.UTC` and the multi-argument `new Date(...)`, not to setters. -/
def fullYearQuirk (y : Int) : Int := if 0 ≤ y ∧ y ≤ 99 then 1900 + y else y

/-- Time value produced by `Date.UTC(y, mo, d, h, mi, s, ms)` (and, with the host
    timezone modelled as UTC, by `new Date(y, mo, d, h, mi, s, ms)`). -/
def jsDateUTC (y mo d h mi s ms : Int) : Option Int :=
  timeClip (makeDay (fullYearQuirk y) mo d * msPerDay +
    (h * msPerHour + mi * msPerMinute + s * msPerSecond + ms))

/-- ECMAScript `setUTCFullYear(y)` on a time value: an Invalid Date is first
    replaced by time value 0; a NaN year argument yields NaN. -/
def jsSetUTCFullYear (t : Option Int) (y : Option Int) : Option Int :=
  let t0 := t.getD 0
  match y with
  | none => none
  | some y =>
      timeClip (makeDay y (monthOfDay (dayOf t0)) (dateOfDay (dayOf t0)) * msPerDay
        + t0 % msPerDay)

/-- ECMAScript `setUTCMonth(m)` on a time value: NaN receiver or argument stays NaN. -/
def jsSetUTCMonth (t : Option Int) (m : Option Int) : Option Int :=
  match t, m with
  | some t, some m =>
      timeClip (makeDay (yearFromDay (dayOf t)) m (dateOfDay (dayOf t)) * msPerDay
        + t % msPerDay)
  | _, _ => none

/-- ECMAScript `setUTCDate(d)` on a time value: NaN receiver or argument stays NaN. -/
def jsSetUTCDate (t : Option Int) (d : Option Int) : Option Int :=
  match t, d with
  | some t, some d =>
      timeClip (makeDay (yearFromDay (dayOf t)) (monthOfDay (dayOf t)) d * msPerDay
        + t % msPerDay)
  | _, _ => none

/-- Options record of the factory (`XBDateFactoryOptions`). -/
structure XBDateOptions where
  normalize : Bool
deriving DecidableEq, Repr

/-- DEFAULT_OPTIONS of `date-factory.js`: `{ normalize: true }`. -/
def DEFAULT_OPTIONS : XBDateOptions := ⟨true⟩

/-- The IIFE `normalizeToUTC` inside `XBDateFactory`: reads the UTC calendar
    fields of the (already parsed) input date and rebuilds the instant with
    `Date.UTC`, forcing the time of day to 12:00:00.000 when `normalize` is
    set and copying the input's UTC time-of-day fields otherwise.  A malformed
    input parses to an Invalid Date, whose fields are NaN, so `Date.UTC`
    again produces NaN. -/
def normalizeToUTC (dateArg : Option Int) (options : XBDateOptions) : Option Int :=
  match dateArg with
  | none => none
  | some t =>
      let D := dayOf t
      jsDateUTC (yearFromDay D) (monthOfDay D) (dateOfDay D)
        (if options.normalize then 12 else hourFromTime t)
        (if options.normalize then 0 else minFromTime t)
        (if options.normalize then 0 else secFromTime t)
        (if options.normalize then 0 else msFromTime t)

/-- The object returned by `XBDateFactory`: it owns a single time value
    `utcDate`.  JavaScript object state is modelled by the value held. -/
structure XBDate where
  utcDate : Option Int
deriving DecidableEq, Repr

/-- The factory `XBDateFactory(dateArg, optionsArg)`; `dateArg` is the time
    value that `new Date(dateArg)` parses the input to (`none` if malformed,
    absent input is represented by the current instant). -/
def XBDateFactory (dateArg : Option Int) (optionsArg : XBDateOptions) : XBDate :=
  ⟨normalizeToUTC dateArg optionsArg⟩

/-- Accessor `getYear()` (`getUTCFullYear`); NaN on an Invalid Date. -/
def XBDate.getYear (x : XBDate) : Option Int :=
  x.utcDate.map (fun t => yearFromDay (dayOf t))

/-- Accessor `getMonth()` (`getUTCMonth`, 0-based); NaN on an Invalid Date. -/
def XBDate.getMonth (x : XBDate) : Option Int :=
  x.utcDate.map (fun t => monthOfDay (dayOf t))

/-- Accessor `getDate()` (`getUTCDate`); NaN on an Invalid Date. -/
def XBDate.getDate (x : XBDate) : Option Int :=
  x.utcDate.map (fun t => dateOfDay (dayOf t))

/-- Accessor `getTime()`; NaN on an Invalid Date. -/
def XBDate.getTime (x : XBDate) : Option Int := x.utcDate

/-- Accessor `getWeekday()` (`getUTCDay`); NaN on an Invalid Date. -/
def XBDate.getWeekday (x : XBDate) : Option Int := x.utcDate.map weekdayOf

/-- Accessor `getHours()` (`getUTCHours`); NaN on an Invalid Date. -/
def XBDate.getHours (x : XBDate) : Option Int := x.utcDate.map hourFromTime

/-- Accessor `getMinutes()` (`getUTCMinutes`); NaN on an Invalid Date. -/
def XBDate.getMinutes (x : XBDate) : Option Int := x.utcDate.map minFromTime

/-- Accessor `getSeconds()` (`getUTCSeconds`); NaN on an Invalid Date. -/
def XBDate.getSeconds (x : XBDate) : Option Int := x.utcDate.map secFromTime

/-- Unit keys of the `summands` / `subtrahends` / `values` mappings. -/
inductive DateUnit where
  | year
  | month
  | day
deriving DecidableEq, Repr

/-- The `increment` object `{year: 0, month: 0, day: 0, [unit]: value}` of the
    file-local `add` helper, as (year, month, day) increments. -/
def unitIncrement (u : DateUnit) (v : Int) : Int × Int × Int :=
  match u with
  | .year => (v, 0, 0)
  | .month => (0, v, 0)
  | .day => (0, 0, v)

/-- The file-local helper `add(date, unit, value)`: reads the UTC fields of the
    raw date, builds `new Date(y + iy, mo + im, d + id, h, mi, s, ms)` with the
    multi-argument local-time constructor (host timezone modelled as UTC; the
    0..99 year remapping applies), and wraps the result with `XBDateFactory`
    under default options.  A NaN input date gives NaN fields and an Invalid
    result. -/
def addHelper (date : Option Int) (unit : DateUnit) (value : Int) : XBDate :=
  match date with
  | none => XBDateFactory none DEFAULT_OPTIONS
  | some t =>
      let D := dayOf t
      let inc := unitIncrement unit value
      XBDateFactory
        (jsDateUTC (yearFromDay D + inc.1) (monthOfDay D + inc.2.1)
          (dateOfDay D + inc.2.2)
          (hourFromTime t) (minFromTime t) (secFromTime t) (msFromTime t))
        DEFAULT_OPTIONS

/-- A JavaScript value flowing through the `add`/`subtract` reduce: the seed is
    the receiver's raw `utcDate` (a `Date`), while each `addHelper` application
    returns an `XBDate` wrapper object. -/
inductive JSValue where
  | date (t : Option Int)
  | xb (x : XBDate)
deriving DecidableEq, Repr

/-- Method `add(summands)`: `Object.keys(summands).reduce((newDate, key) =>
    add(newDate, key, summands[key]), utcDate)`.  The mapping is modelled as a
    list in key iteration order.  The helper expects a raw `Date` and calls
    `date.getUTCFullYear()`; when the accumulator is already an `XBDate`
    wrapper (from a previous iteration) that call is a TypeError, modelled as
    `Except.error ()`. -/
def XBDate.add (x : XBDate) (summands : List (DateUnit × Int)) :
    Except Unit JSValue :=
  summands.foldlM
    (fun acc kv =>
      match acc with
      | JSValue.date t => Except.ok (JSValue.xb (addHelper t kv.1 kv.2))
      | JSValue.xb _ => Except.error ())
    (JSValue.date x.utcDate)

/-- Method `subtract(subtrahends)`: same reduce with `-1 * subtrahends[key]`. -/
def XBDate.subtract (x : XBDate) (subtrahends : List (DateUnit × Int)) :
    Except Unit JSValue :=
  subtrahends.foldlM
    (fun acc kv =>
      match acc with
      | JSValue.date t => Except.ok (JSValue.xb (addHelper t kv.1 (-1 * kv.2)))
      | JSValue.xb _ => Except.error ())
    (JSValue.date x.utcDate)

/-- Partial `values` mapping of the `set` method. -/
structure SetValues where
  year : Option Int
  month : Option Int
  day : Option Int
deriving DecidableEq, Repr

/-- Method `set(values)`: builds `newValue` from the receiver's current UTC
    year/month/day overridden by the present fields of `values`, then runs
    `setUTCFullYear`, `setUTCMonth`, `setUTCDate` in sequence on the receiver's
    own date object and returns the receiver (here: the receiver with its
    mutated time value). -/
def XBDate.set (x : XBDate) (values : SetValues) : XBDate :=
  let newYear := match values.year with
    | some y => some y
    | none => x.getYear
  let newMonth := match values.month with
    | some m => some m
    | none => x.getMonth
  let newDay := match values.day with
    | some d => some d
    | none => x.getDate
  let t1 := jsSetUTCFullYear x.utcDate newYear
  let t2 := jsSetUTCMonth t1 newMonth
  let t3 := jsSetUTCDate t2 newDay
  ⟨t3⟩

/-- Operator normalization inside `is`: any operator that is not one of
    `>=`, `>`, `=`, `<`, `<=`, and also `=` itself, becomes strict equality. -/
def getSafeOperator (operator : String) : String :=
  if ¬ (operator ∈ [(">="), (">"), ("="), ("<"), ("<=")]) ∨ operator = "=" then "==="
  else operator

/-- Position count of the `COMPARE_TO` lookup inside `getComparableDate`:
    `year ↦ 1`, `month ↦ 2`, `day ↦ 3`; any other precision string looks up
    `undefined`, and `slice(0, undefined)` keeps the whole array, i.e. 3. -/
def comparablePrecision (precision : String) : Nat :=
  if precision = "year" then 1
  else if precision = "month" then 2
  else 3

/-- Numeric value of `getComparableDate`: the source builds the string
    `String(getUTCFullYear()) ++ pad2(getUTCMonth()) ++ pad2(getUTCDate())`,
    slices it to the precision and applies `Number`.  Since the 0-based month
    (0..11) and the day (1..31) print as exactly two padded digits, the parsed
    number is the place-value sum below; for a negative year the minus sign
    prefixes the whole concatenation, so the magnitude built from `-year` is
    negated.  On an Invalid Date the fields print as `NaN` and `Number`
    returns NaN (`none`). -/
def getComparableDate (t : Option Int) (precision : String) : Option Int :=
  t.map fun t =>
    let D := dayOf t
    let y := yearFromDay D
    let k := comparablePrecision precision
    if k = 1 then y
    else
      let rest := if k = 2 then monthOfDay D else monthOfDay D * 100 + dateOfDay D
      let scale : Int := if k = 2 then 100 else 10000
      if 0 ≤ y then y * scale + rest else -((-y) * scale + rest)

/-- The dynamically evaluated `Function("return (a OP b)")()` of `compare`,
    applied to two interpolated numbers: NaN (from an invalid date's
    comparable) makes every comparison, including `===`, false. -/
def jsCompare (op : String) (a b : Option Int) : Bool :=
  match a, b with
  | some a, some b =>
      if op = ">=" then decide (a ≥ b)
      else if op = ">" then decide (a > b)
      else if op = "<" then decide (a < b)
      else if op = "<=" then decide (a ≤ b)
      else a == b
  | _, _ => false

/-- Method `is(operator, otherDate, precision)` (the source defaults
    `precision` to `day`; callers here always pass it). -/
def XBDate.is (x : XBDate) (operator : String) (otherDate : XBDate)
    (precision : String) : Bool :=
  jsCompare (getSafeOperator operator)
    (getComparableDate x.utcDate precision)
    (getComparableDate otherDate.utcDate precision)

/-- Equality of reduce results is decidable (used to evaluate the model on
    concrete inputs). -/
instance : DecidableEq (Except Unit JSValue) := fun a b =>
  match a, b with
  | Except.ok x, Except.ok y => decidable_of_iff (x = y) (by simp)
  | Except.error x, Except.error y => decidable_of_iff (x = y) (by simp)
  | Except.ok _, Except.error _ => isFalse (fun h => Except.noConfusion h)
  | Except.error _, Except.ok _ => isFalse (fun h => Except.noConfusion h)

/-- Member access `.subtract(...)` on the result of `.add(...)`: only an
    `XBDate` wrapper has a `subtract` method; calling it on a raw `Date` or
    after an exception is an error. -/
def chainSubtract (r : Except Unit JSValue) (s : List (DateUnit × Int)) :
    Except Unit JSValue :=
  match r with
  | Except.ok (JSValue.xb x) => x.subtract s
  | _ => Except.error ()

/-- Member access `.is('=', other, 'day')` on the result of a chain. -/
def chainIsSameDay (r : Except Unit JSValue) (other : XBDate) : Option Bool :=
  match r with
  | Except.ok (JSValue.xb x) => some (x.is ("=") other ("day"))
  | _ => none

/-- Modelled from the spec: the constraint shapes of `src/date-constraints.js`
    (not among the sources).  Section 4.2: a constraint is a predicate
    function, a range with two date-like bounds, or a single date. -/
inductive Constraint where
  | single (d : Option Int)
  | range (startDate endDate : Option Int)
  | predicate (f : XBDate → Bool)

/-- Modelled from the spec: `getConstraintEvaluator` of
    `src/date-constraints.js` (not among the sources).  Section 4.2: a
    function constraint is returned unchanged; a range constraint is true iff
    the candidate's day-precision comparable lies between the bounds'
    comparables, inclusive; a single date is compared for equality at day
    precision.  Bound and single dates are built with the factory's default
    options. -/
def getConstraintEvaluator (c : Constraint) : XBDate → Bool :=
  match c with
  | .predicate f => f
  | .single d => fun cand => cand.is ("=") (XBDateFactory d DEFAULT_OPTIONS) ("day")
  | .range s e => fun cand =>
      jsCompare (">=") (getComparableDate cand.utcDate ("day"))
        (getComparableDate (XBDateFactory s DEFAULT_OPTIONS).utcDate ("day"))
      && jsCompare ("<=") (getComparableDate cand.utcDate ("day"))
        (getComparableDate (XBDateFactory e DEFAULT_OPTIONS).utcDate ("day"))

/-- Method `matches(...constraints)`: false when the list is empty (the
    `isEmpty` collaborator), otherwise each constraint is resolved to an
    evaluator and the evaluators are OR-ed (`Array.some`) over a fresh Date
    Value built by `XBDateFactory(utcDate)` from the receiver's instant with
    default options — not over the receiver itself. -/
def XBDate.matches (x : XBDate) (constraints : List Constraint) : Bool :=
  if constraints.isEmpty then false
  else
    let date := XBDateFactory x.utcDate DEFAULT_OPTIONS
    (constraints.map getConstraintEvaluator).any fun evaluator => evaluator date

/-! ### Arithmetic facts about the calendar primitives -/

theorem daysFromYear_doe (j : Int) : daysFromYear j = doeOfYoe j - 719528 := by
  unfold daysFromYear doeOfYoe
  omega

theorem daysFromYear_shift (k j : Int) :
    daysFromYear (400 * k + j) = 146097 * k + daysFromYear j := by
  unfold daysFromYear
  omega

theorem daysFromYear_succ (y : Int) :
    daysFromYear (y + 1) = daysFromYear y + (if isLeap y then 366 else 365) := by
  unfold daysFromYear isLeap
  simp only [Bool.and_eq_true, beq_iff_eq, Bool.or_eq_true, bne_iff_ne, ne_eq]
  split_ifs with h
  · omega
  · omega

theorem daysFromYear_succ_ge (y : Int) : daysFromYear y + 365 ≤ daysFromYear (y + 1) := by
  rw [daysFromYear_succ]
  split_ifs <;> omega

theorem daysFromYear_succ_le (y : Int) : daysFromYear (y + 1) ≤ daysFromYear y + 366 := by
  rw [daysFromYear_succ]
  split_ifs <;> omega

theorem daysFromYear_mono {y z : Int} (h : y ≤ z) : daysFromYear y ≤ daysFromYear z := by
  have key : ∀ n : Nat, daysFromYear y ≤ daysFromYear (y + n) := by
    intro n
    induction n with
    | zero => simp
    | succ m ih =>
        have step := daysFromYear_succ_ge (y + m)
        have harg : y + ((m : Int) + 1) = (y + m) + 1 := by ring
        push_cast
        rw [harg]
        omega
  have hz : z = y + ((z - y).toNat : Int) := by omega
  rw [hz]
  exact key _

theorem daysFromYear_strict_mono {y z : Int} (h : y < z) :
    daysFromYear y + 365 ≤ daysFromYear z := by
  have h1 : y + 1 ≤ z := h
  have := daysFromYear_succ_ge y
  have := daysFromYear_mono h1
  omega

theorem yoePick_spec (doe : Int) (h0 : 0 ≤ doe) (h1 : doe < 146097) :
    doeOfYoe (if doeOfYoe (min (doe / 365) 399) ≤ doe then min (doe / 365) 399
      else min (doe / 365) 399 - 1) ≤ doe ∧
    doe < doeOfYoe ((if doeOfYoe (min (doe / 365) 399) ≤ doe then min (doe / 365) 399
      else min (doe / 365) 399 - 1) + 1) := by
  rw [Int.min_def]
  split_ifs with hm hle hle
  · constructor
    · unfold doeOfYoe at hle ⊢; omega
    · unfold doeOfYoe; omega
  · constructor
    · unfold doeOfYoe at hle ⊢; omega
    · have hc : doe / 365 - 1 + 1 = doe / 365 := by omega
      rw [hc]
      unfold doeOfYoe at hle ⊢; omega
  · constructor
    · unfold doeOfYoe at hle ⊢; omega
    · unfold doeOfYoe; omega
  · constructor
    · unfold doeOfYoe at hle ⊢; omega
    · have hc : (399 : Int) - 1 + 1 = 399 := by omega
      rw [hc]
      unfold doeOfYoe at hle ⊢; omega

theorem yearFromDay_spec (D : Int) :
    daysFromYear (yearFromDay D) ≤ D ∧ D < daysFromYear (yearFromDay D + 1) := by
  have hyfd : yearFromDay D = 400 * ((D + 719528) / 146097)
      + (if doeOfYoe (min ((D + 719528) % 146097 / 365) 399) ≤ (D + 719528) % 146097
         then min ((D + 719528) % 146097 / 365) 399
         else min ((D + 719528) % 146097 / 365) 399 - 1) := rfl
  set doe := (D + 719528) % 146097 with hdoe
  set era := (D + 719528) / 146097 with hera
  set yoe := (if doeOfYoe (min (doe / 365) 399) ≤ doe then min (doe / 365) 399
    else min (doe / 365) 399 - 1) with hyoe
  have h0 : 0 ≤ doe := by rw [hdoe]; omega
  have h1 : doe < 146097 := by rw [hdoe]; omega
  have hpick : doeOfYoe yoe ≤ doe ∧ doe < doeOfYoe (yoe + 1) := by
    rw [hyoe]; exact yoePick_spec doe h0 h1
  have hdecomp : D + 719528 = 146097 * era + doe := by rw [hera, hdoe]; omega
  rw [hyfd]
  have e1 : daysFromYear (400 * era + yoe) = 146097 * era + (doeOfYoe yoe - 719528) := by
    rw [daysFromYear_shift, daysFromYear_doe]
  have e2 : 400 * era + yoe + 1 = 400 * era + (yoe + 1) := by ring
  have e3 : daysFromYear (400 * era + (yoe + 1))
      = 146097 * era + (doeOfYoe (yoe + 1) - 719528) := by
    rw [daysFromYear_shift, daysFromYear_doe]
  rw [e1, e2, e3]
  omega

theorem yearFromDay_unique {y D : Int} (h1 : daysFromYear y ≤ D)
    (h2 : D < daysFromYear (y + 1)) : yearFromDay D = y := by
  rcases yearFromDay_spec D with ⟨hl, hr⟩
  by_contra hne
  rcases lt_or_gt_of_ne hne with hlt | hgt
  · have : yearFromDay D + 1 ≤ y := hlt
    have := daysFromYear_mono this
    omega
  · have : y + 1 ≤ yearFromDay D := hgt
    have := daysFromYear_mono this
    omega

theorem yearFromDay_of_doy {y doy : Int} (h0 : 0 ≤ doy)
    (h1 : doy < (if isLeap y then 366 else 365)) :
    yearFromDay (daysFromYear y + doy) = y := by
  apply yearFromDay_unique
  · omega
  · rw [daysFromYear_succ]; omega

theorem dayWithinYear_bounds (D : Int) :
    0 ≤ dayWithinYear D ∧
    dayWithinYear D < (if isLeap (yearFromDay D) then 366 else 365) := by
  unfold dayWithinYear
  rcases yearFromDay_spec D with ⟨hl, hr⟩
  rw [daysFromYear_succ] at hr
  constructor
  · omega
  · split_ifs at hr ⊢ <;> omega

set_option maxHeartbeats 1600000 in
theorem month_extractL (L doy : Int) (hL : L = 0 ∨ L = 1) (h0 : 0 ≤ doy)
    (h1 : doy < 365 + L) :
    0 ≤ monthFromDoyL L doy ∧ monthFromDoyL L doy ≤ 11 ∧
    cumMonthL L (monthFromDoyL L doy) ≤ doy ∧
    doy < cumMonthL L (monthFromDoyL L doy + 1) ∧
    doy - cumMonthL L (monthFromDoyL L doy) + 1 ≤ 31 := by
  unfold monthFromDoyL
  split_ifs <;> norm_num [cumMonthL] <;> omega

theorem month_extract (leap : Bool) (doy : Int) (h0 : 0 ≤ doy)
    (h1 : doy < (if leap then 366 else 365)) :
    0 ≤ monthFromDoy leap doy ∧ monthFromDoy leap doy ≤ 11 ∧
    cumMonth leap (monthFromDoy leap doy) ≤ doy ∧
    doy < cumMonth leap (monthFromDoy leap doy + 1) ∧
    doy - cumMonth leap (monthFromDoy leap doy) + 1 ≤ 31 := by
  have hmain := month_extractL (if leap then 1 else 0) doy
    (by cases leap <;> simp) h0 (by cases leap <;> simp at h1 ⊢ <;> omega)
  unfold monthFromDoy cumMonth
  exact hmain

theorem cumMonthL_bounds (L m : Int) (hL : L = 0 ∨ L = 1) (h0 : 0 ≤ m)
    (h1 : m ≤ 11) : 0 ≤ cumMonthL L m ∧ cumMonthL L m ≤ 334 + L := by
  interval_cases m <;> norm_num [cumMonthL] <;> omega

theorem cumMonth_bounds (leap : Bool) (m : Int) (h0 : 0 ≤ m) (h1 : m ≤ 11) :
    0 ≤ cumMonth leap m ∧ cumMonth leap m ≤ 335 := by
  have hL : (if leap then (1 : Int) else 0) = 0 ∨ (if leap then (1 : Int) else 0) = 1 := by
    cases leap <;> norm_num
  have hb := cumMonthL_bounds (if leap then 1 else 0) m hL h0 h1
  unfold cumMonth
  omega

theorem monthOfDay_bounds (D : Int) : 0 ≤ monthOfDay D ∧ monthOfDay D ≤ 11 := by
  have hb := dayWithinYear_bounds D
  have hm := month_extract (isLeap (yearFromDay D)) (dayWithinYear D) hb.1 hb.2
  exact ⟨hm.1, hm.2.1⟩

theorem dateOfDay_bounds (D : Int) : 1 ≤ dateOfDay D ∧ dateOfDay D ≤ 31 := by
  have hb := dayWithinYear_bounds D
  have hm := month_extract (isLeap (yearFromDay D)) (dayWithinYear D) hb.1 hb.2
  unfold dateOfDay monthOfDay
  constructor
  · have h3 := hm.2.2.1
    omega
  · have h5 := hm.2.2.2.2
    omega

theorem makeDay_eq_of_month (y mo d : Int) (h0 : 0 ≤ mo) (h1 : mo ≤ 11) :
    makeDay y mo d = daysFromYear y + cumMonth (isLeap y) mo + d - 1 := by
  unfold makeDay
  have h12 : mo / 12 = 0 ∧ mo % 12 = mo := by omega
  rw [h12.1, h12.2, add_zero]

theorem makeDay_extract (D : Int) :
    makeDay (yearFromDay D) (monthOfDay D) (dateOfDay D) = D := by
  have hb := dayWithinYear_bounds D
  have hm := month_extract (isLeap (yearFromDay D)) (dayWithinYear D) hb.1 hb.2
  have hmo := monthOfDay_bounds D
  rw [makeDay_eq_of_month _ _ _ hmo.1 hmo.2]
  unfold dateOfDay monthOfDay dayWithinYear at *
  omega

theorem makeDay_day_shift (y m d n : Int) : makeDay y m (d + n) = makeDay y m d + n := by
  simp only [makeDay]
  omega

theorem timeFields_decomp (t : Int) :
    hourFromTime t * msPerHour + minFromTime t * msPerMinute
      + secFromTime t * msPerSecond + msFromTime t = t % msPerDay := by
  unfold hourFromTime minFromTime secFromTime msFromTime
  unfold msPerDay msPerHour msPerMinute msPerSecond
  omega

theorem timeFields_mul_add (D r : Int) (h0 : 0 ≤ r) (h1 : r < msPerDay) :
    dayOf (D * msPerDay + r) = D ∧ (D * msPerDay + r) % msPerDay = r ∧
    hourFromTime (D * msPerDay + r) = hourFromTime r ∧
    minFromTime (D * msPerDay + r) = minFromTime r ∧
    secFromTime (D * msPerDay + r) = secFromTime r ∧
    msFromTime (D * msPerDay + r) = msFromTime r := by
  unfold dayOf hourFromTime minFromTime secFromTime msFromTime at *
  unfold msPerDay msPerHour msPerMinute msPerSecond at *
  omega

theorem tod_bounds (t : Int) : 0 ≤ t % msPerDay ∧ t % msPerDay < msPerDay ∧
    t = dayOf t * msPerDay + t % msPerDay := by
  unfold dayOf msPerDay
  omega

theorem timeClip_some {x : Int} (hlo : -8640000000000000 ≤ x)
    (hhi : x ≤ 8640000000000000) : timeClip x = some x := by
  unfold timeClip
  rw [if_pos (by omega)]

theorem dayOf_range_of_valid {t : Int} (hv : t.natAbs ≤ 8640000000000000) :
    -100000000 ≤ dayOf t ∧ dayOf t ≤ 100000000 := by
  unfold dayOf msPerDay
  omega

theorem timeFields_mod (t : Int) :
    hourFromTime (t % msPerDay) = hourFromTime t ∧
    minFromTime (t % msPerDay) = minFromTime t ∧
    secFromTime (t % msPerDay) = secFromTime t ∧
    msFromTime (t % msPerDay) = msFromTime t := by
  unfold hourFromTime minFromTime secFromTime msFromTime
  unfold msPerDay msPerHour msPerMinute msPerSecond
  omega

theorem quirkDay_cases (D : Int) :
    (¬ (0 ≤ yearFromDay D ∧ yearFromDay D ≤ 99) ∧
      makeDay (fullYearQuirk (yearFromDay D)) (monthOfDay D) (dateOfDay D) = D) ∨
    (-30000 ≤ makeDay (fullYearQuirk (yearFromDay D)) (monthOfDay D) (dateOfDay D) ∧
      makeDay (fullYearQuirk (yearFromDay D)) (monthOfDay D) (dateOfDay D) ≤ 20000) := by
  by_cases hq : 0 ≤ yearFromDay D ∧ yearFromDay D ≤ 99
  · right
    have hfq : fullYearQuirk (yearFromDay D) = 1900 + yearFromDay D := by
      unfold fullYearQuirk
      rw [if_pos hq]
    rw [hfq]
    have hmo := monthOfDay_bounds D
    have hd := dateOfDay_bounds D
    rw [makeDay_eq_of_month _ _ _ hmo.1 hmo.2]
    have hcb := cumMonth_bounds (isLeap (1900 + yearFromDay D)) (monthOfDay D) hmo.1 hmo.2
    have hb1 : daysFromYear 1900 ≤ daysFromYear (1900 + yearFromDay D) :=
      daysFromYear_mono (by omega)
    have hb2 : daysFromYear (1900 + yearFromDay D) ≤ daysFromYear 1999 :=
      daysFromYear_mono (by omega)
    have c1 : daysFromYear 1900 = -25567 := by decide
    have c2 : daysFromYear 1999 = 10592 := by decide
    omega
  · left
    have hfq : fullYearQuirk (yearFromDay D) = yearFromDay D := by
      unfold fullYearQuirk
      rw [if_neg hq]
    rw [hfq, makeDay_extract]
    exact ⟨hq, rfl⟩

theorem normalizeToUTC_true (t : Int) :
    normalizeToUTC (some t) ⟨true⟩
      = timeClip (makeDay (fullYearQuirk (yearFromDay (dayOf t))) (monthOfDay (dayOf t))
          (dateOfDay (dayOf t)) * msPerDay + 43200000) := by
  simp only [normalizeToUTC, jsDateUTC]
  norm_num [msPerHour, msPerMinute, msPerSecond]

theorem normalizeToUTC_false (t : Int) :
    normalizeToUTC (some t) ⟨false⟩
      = timeClip (makeDay (fullYearQuirk (yearFromDay (dayOf t))) (monthOfDay (dayOf t))
          (dateOfDay (dayOf t)) * msPerDay + t % msPerDay) := by
  simp only [normalizeToUTC, jsDateUTC, Bool.false_eq_true, if_false]
  rw [timeFields_decomp]

theorem factory_true_utcDate (t : Int) (hv : t.natAbs ≤ 8640000000000000)
    (hD : dayOf t < 100000000) :
    (XBDateFactory (some t) ⟨true⟩).utcDate
      = some (makeDay (fullYearQuirk (yearFromDay (dayOf t))) (monthOfDay (dayOf t))
          (dateOfDay (dayOf t)) * msPerDay + 43200000) := by
  have hDlo := (dayOf_range_of_valid hv).1
  have hM : -100000000 ≤ makeDay (fullYearQuirk (yearFromDay (dayOf t)))
        (monthOfDay (dayOf t)) (dateOfDay (dayOf t)) ∧
      makeDay (fullYearQuirk (yearFromDay (dayOf t))) (monthOfDay (dayOf t))
        (dateOfDay (dayOf t)) < 100000000 := by
    rcases quirkDay_cases (dayOf t) with ⟨hnq, hMe⟩ | ⟨h1, h2⟩
    · rw [hMe]
      exact ⟨hDlo, hD⟩
    · constructor <;> omega
  show normalizeToUTC (some t) ⟨true⟩ = _
  rw [normalizeToUTC_true]
  exact timeClip_some (by unfold msPerDay; omega) (by unfold msPerDay; omega)

theorem factory_false_utcDate (t : Int) (hv : t.natAbs ≤ 8640000000000000) :
    (XBDateFactory (some t) ⟨false⟩).utcDate
      = some (makeDay (fullYearQuirk (yearFromDay (dayOf t))) (monthOfDay (dayOf t))
          (dateOfDay (dayOf t)) * msPerDay + t % msPerDay) := by
  have hDb := dayOf_range_of_valid hv
  have htod := tod_bounds t
  have hM : (-100000000 ≤ makeDay (fullYearQuirk (yearFromDay (dayOf t)))
        (monthOfDay (dayOf t)) (dateOfDay (dayOf t)) ∧
      makeDay (fullYearQuirk (yearFromDay (dayOf t))) (monthOfDay (dayOf t))
        (dateOfDay (dayOf t)) ≤ 100000000) ∧
      (makeDay (fullYearQuirk (yearFromDay (dayOf t))) (monthOfDay (dayOf t))
          (dateOfDay (dayOf t)) = dayOf t ∨
        makeDay (fullYearQuirk (yearFromDay (dayOf t))) (monthOfDay (dayOf t))
          (dateOfDay (dayOf t)) ≤ 20000) := by
    rcases quirkDay_cases (dayOf t) with ⟨hnq, hMe⟩ | ⟨h1, h2⟩
    · rw [hMe]
      exact ⟨⟨hDb.1, hDb.2⟩, Or.inl rfl⟩
    · exact ⟨⟨by omega, by omega⟩, Or.inr h2⟩
  show normalizeToUTC (some t) ⟨false⟩ = _
  rw [normalizeToUTC_false]
  rcases hM with ⟨⟨hMlo, hMhi⟩, hMcase⟩
  rcases hMcase with hMe | hMle
  · rw [hMe]
    exact timeClip_some (by unfold msPerDay at htod ⊢; omega)
      (by unfold msPerDay at htod ⊢; omega)
  · exact timeClip_some (by unfold msPerDay at htod ⊢; omega)
      (by unfold msPerDay at htod ⊢; omega)

theorem factory_true_fields (t : Int) (hv : t.natAbs ≤ 8640000000000000)
    (hD : dayOf t < 100000000) :
    (XBDateFactory (some t) ⟨true⟩).getHours = some 12 ∧
    (XBDateFactory (some t) ⟨true⟩).getMinutes = some 0 ∧
    (XBDateFactory (some t) ⟨true⟩).getSeconds = some 0 ∧
    (XBDateFactory (some t) ⟨true⟩).utcDate.map msFromTime = some 0 := by
  have hu := factory_true_utcDate t hv hD
  have hf := timeFields_mul_add (makeDay (fullYearQuirk (yearFromDay (dayOf t)))
      (monthOfDay (dayOf t)) (dateOfDay (dayOf t))) 43200000 (by norm_num)
      (by unfold msPerDay; norm_num)
  unfold XBDate.getHours XBDate.getMinutes XBDate.getSeconds
  rw [hu]
  simp only [Option.map_some']
  rw [hf.2.2.1, hf.2.2.2.1, hf.2.2.2.2.1, hf.2.2.2.2.2]
  refine ⟨by decide, by decide, by decide, by decide⟩

theorem factory_false_fields (t : Int) (hv : t.natAbs ≤ 8640000000000000) :
    (XBDateFactory (some t) ⟨false⟩).getHours = some (hourFromTime t) ∧
    (XBDateFactory (some t) ⟨false⟩).getMinutes = some (minFromTime t) ∧
    (XBDateFactory (some t) ⟨false⟩).getSeconds = some (secFromTime t) ∧
    (XBDateFactory (some t) ⟨false⟩).utcDate.map msFromTime = some (msFromTime t) := by
  have hu := factory_false_utcDate t hv
  have htod := tod_bounds t
  have hf := timeFields_mul_add (makeDay (fullYearQuirk (yearFromDay (dayOf t)))
      (monthOfDay (dayOf t)) (dateOfDay (dayOf t))) (t % msPerDay) htod.1 htod.2.1
  have hmod := timeFields_mod t
  unfold XBDate.getHours XBDate.getMinutes XBDate.getSeconds
  rw [hu]
  simp only [Option.map_some']
  rw [hf.2.2.1, hf.2.2.2.1, hf.2.2.2.2.1, hf.2.2.2.2.2,
    hmod.1, hmod.2.1, hmod.2.2.1, hmod.2.2.2]
  exact ⟨rfl, rfl, rfl, rfl⟩

/-! ### Claims -/

/-- Claim C1 (amended): for every valid input instant below the maximal
    representable day, constructing with `normalize: true` (the default)
    forces the UTC time of day to 12:00:00.000; for every valid input,
    constructing with `normalize: false` preserves the input's UTC hour,
    minute, second and millisecond exactly.  (At the single maximal valid
    instant the normalized noon overflows `TimeClip` and the result is an
    Invalid Date — see the counterexample.) -/
theorem c1_normalize_time_of_day (t : Int) (hv : t.natAbs ≤ 8640000000000000) :
    (dayOf t < 100000000 →
      (XBDateFactory (some t) ⟨true⟩).getHours = some 12 ∧
      (XBDateFactory (some t) ⟨true⟩).getMinutes = some 0 ∧
      (XBDateFactory (some t) ⟨true⟩).getSeconds = some 0 ∧
      (XBDateFactory (some t) ⟨true⟩).utcDate.map msFromTime = some 0) ∧
    ((XBDateFactory (some t) ⟨false⟩).getHours = some (hourFromTime t) ∧
     (XBDateFactory (some t) ⟨false⟩).getMinutes = some (minFromTime t) ∧
     (XBDateFactory (some t) ⟨false⟩).getSeconds = some (secFromTime t) ∧
     (XBDateFactory (some t) ⟨false⟩).utcDate.map msFromTime = some (msFromTime t)) :=
  ⟨fun hD => factory_true_fields t hv hD, factory_false_fields t hv⟩

/-- Claim C1, witness at the instant 2023-11-14T22:13:20.123Z. -/
theorem c1_normalize_time_of_day_witness :
    ((1700000000123 : Int).natAbs ≤ 8640000000000000) ∧
    dayOf (1700000000123 : Int) < 100000000 ∧
    ((XBDateFactory (some 1700000000123) ⟨true⟩).getHours = some 12 ∧
     (XBDateFactory (some 1700000000123) ⟨true⟩).getMinutes = some 0 ∧
     (XBDateFactory (some 1700000000123) ⟨true⟩).getSeconds = some 0 ∧
     (XBDateFactory (some 1700000000123) ⟨true⟩).utcDate.map msFromTime = some 0) ∧
    ((XBDateFactory (some 1700000000123) ⟨false⟩).getHours
        = some (hourFromTime 1700000000123) ∧
     (XBDateFactory (some 1700000000123) ⟨false⟩).getMinutes
        = some (minFromTime 1700000000123) ∧
     (XBDateFactory (some 1700000000123) ⟨false⟩).getSeconds
        = some (secFromTime 1700000000123) ∧
     (XBDateFactory (some 1700000000123) ⟨false⟩).utcDate.map msFromTime
        = some (msFromTime 1700000000123)) :=
  ⟨by decide, by decide,
    (c1_normalize_time_of_day 1700000000123 (by decide)).1 (by decide),
    (c1_normalize_time_of_day 1700000000123 (by decide)).2⟩

/-- Claim C1, counterexample to the claim as stated: the maximal representable
    instant +275760-09-13T00:00:00.000Z is a valid input, yet default
    construction yields an Invalid Date (its noon is clipped to NaN), so the
    UTC hour is NaN rather than 12. -/
theorem c1_max_instant_counterexample :
    (8640000000000000 : Int).natAbs ≤ 8640000000000000 ∧
    (XBDateFactory (some 8640000000000000) DEFAULT_OPTIONS).utcDate = none ∧
    (XBDateFactory (some 8640000000000000) DEFAULT_OPTIONS).getHours = none :=
  ⟨by decide, by decide, by decide⟩

/-- Claim C2: `matches` returns false for the empty constraint list, and
    otherwise returns true iff at least one resolved constraint evaluator
    returns true for the candidate Date Value (the fresh default-options
    value built from the receiver's instant). -/
theorem c2_matches_disjunction (x : XBDate) (cs : List Constraint) :
    x.matches [] = false ∧
    (x.matches cs = true ↔
      ∃ c ∈ cs, getConstraintEvaluator c (XBDateFactory x.utcDate DEFAULT_OPTIONS) = true) := by
  constructor
  · rfl
  · unfold XBDate.matches
    cases cs with
    | nil => simp
    | cons a l =>
        rw [if_neg (by simp)]
        dsimp only
        simp [List.any_eq_true, List.mem_map]

/-- Claim C5 (code bug): a summands/subtrahends mapping with two or more
    units makes `add`/`subtract` throw.  The reduce seeds with the raw
    `utcDate`, but the helper returns an `XBDate` wrapper, so from the second
    key on the helper calls `getUTCFullYear` on an object that has no such
    method — a TypeError, instead of the sequential per-unit application the
    spec describes. -/
theorem c5_multi_unit_throws (x : XBDate) (u1 u2 : DateUnit) (v1 v2 : Int)
    (rest : List (DateUnit × Int)) :
    x.add ((u1, v1) :: (u2, v2) :: rest) = Except.error () ∧
    x.subtract ((u1, v1) :: (u2, v2) :: rest) = Except.error () :=
  ⟨rfl, rfl⟩

/-- Claim C7: any operator other than the four strict-order operators —
    including `=` itself and arbitrary unrecognized strings — makes `is`
    compare the two comparables with strict equality, identically to
    `is('=', ...)`. -/
theorem c7_unknown_operator (op : String)
    (h : ¬ op ∈ [(">="), (">"), ("<"), ("<=")]) (x y : XBDate) (p : String) :
    x.is op y p = x.is ("=") y p ∧
    x.is op y p = jsCompare ("===") (getComparableDate x.utcDate p)
      (getComparableDate y.utcDate p) := by
  have hs : getSafeOperator op = "===" := by
    unfold getSafeOperator
    by_cases he : op = "="
    · rw [if_pos (Or.inr he)]
    · have h5 : ¬ op ∈ [(">="), (">"), ("="), ("<"), ("<=")] := by
        simp only [List.mem_cons, List.not_mem_nil, or_false] at h ⊢
        tauto
      rw [if_pos (Or.inl h5)]
  have hs2 : getSafeOperator ("=") = "===" := by decide
  unfold XBDate.is
  rw [hs, hs2]
  exact ⟨rfl, rfl⟩

/-- Claim C7, witness with the unrecognized operator string `bogus`. -/
theorem c7_unknown_operator_witness :
    (¬ ("bogus" : String) ∈ [(">="), (">"), ("<"), ("<=")]) ∧
    ((XBDateFactory (some 1700000000000) DEFAULT_OPTIONS).is ("bogus")
        (XBDateFactory (some 1700000000123) DEFAULT_OPTIONS) ("day")
      = (XBDateFactory (some 1700000000000) DEFAULT_OPTIONS).is ("=")
        (XBDateFactory (some 1700000000123) DEFAULT_OPTIONS) ("day") ∧
     (XBDateFactory (some 1700000000000) DEFAULT_OPTIONS).is ("bogus")
        (XBDateFactory (some 1700000000123) DEFAULT_OPTIONS) ("day")
      = jsCompare ("===")
        (getComparableDate (XBDateFactory (some 1700000000000) DEFAULT_OPTIONS).utcDate ("day"))
        (getComparableDate (XBDateFactory (some 1700000000123) DEFAULT_OPTIONS).utcDate ("day"))) :=
  ⟨by decide, c7_unknown_operator ("bogus") (by decide)
    (XBDateFactory (some 1700000000000) DEFAULT_OPTIONS)
    (XBDateFactory (some 1700000000123) DEFAULT_OPTIONS) ("day")⟩

/-- Claim C8: a malformed/unparseable input parses to the invalid-date
    sentinel; construction still succeeds (never throws) and propagates the
    sentinel, and every field accessor returns the NaN sentinel. -/
theorem c8_invalid_propagation (opts : XBDateOptions) :
    XBDateFactory none opts = ⟨none⟩ ∧
    (XBDateFactory none opts).getYear = none ∧
    (XBDateFactory none opts).getMonth = none ∧
    (XBDateFactory none opts).getDate = none ∧
    (XBDateFactory none opts).getTime = none ∧
    (XBDateFactory none opts).getWeekday = none ∧
    (XBDateFactory none opts).getHours = none ∧
    (XBDateFactory none opts).getMinutes = none ∧
    (XBDateFactory none opts).getSeconds = none :=
  ⟨rfl, rfl, rfl, rfl, rfl, rfl, rfl, rfl, rfl⟩

/-- Claim C9 (amended): only a one-unit mapping makes `add`/`subtract`
    return a new Date Value (built by the helper); the empty mapping returns
    the receiver's own raw underlying date — not a Date Value — and two or
    more units throw (see the C5 theorem).  The receiver's state is never
    written by either method. -/
theorem c9_add_return_shape (x : XBDate) (u : DateUnit) (v : Int) :
    x.add [] = Except.ok (JSValue.date x.utcDate) ∧
    x.subtract [] = Except.ok (JSValue.date x.utcDate) ∧
    x.add [(u, v)] = Except.ok (JSValue.xb (addHelper x.utcDate u v)) ∧
    x.subtract [(u, v)] = Except.ok (JSValue.xb (addHelper x.utcDate u (-1 * v))) :=
  ⟨rfl, rfl, rfl, rfl⟩

/-- Claim C9, counterexample to the claim as stated: with the empty mapping,
    `add` returns the receiver's own raw `utcDate` (the very time value the
    receiver holds), not a new Date Value. -/
theorem c9_empty_add_counterexample :
    (XBDateFactory (some 1700000000000) DEFAULT_OPTIONS).add []
      = Except.ok (JSValue.date (some 1699963200000)) ∧
    (XBDateFactory (some 1700000000000) DEFAULT_OPTIONS).utcDate = some 1699963200000 :=
  ⟨by decide, by decide⟩

/-! ### Comparable values and calendar order -/

theorem comparable_some_year (t : Int) :
    getComparableDate (some t) ("year") = some (yearFromDay (dayOf t)) := by
  simp only [getComparableDate, Option.map_some']
  norm_num [comparablePrecision]

theorem comparable_some_month (t : Int) (hy : 0 ≤ yearFromDay (dayOf t)) :
    getComparableDate (some t) ("month")
      = some (yearFromDay (dayOf t) * 100 + monthOfDay (dayOf t)) := by
  have hk : comparablePrecision ("month") = 2 := by decide
  simp only [getComparableDate, Option.map_some', hk]
  norm_num
  intro hneg
  omega

theorem comparable_some_day (t : Int) (hy : 0 ≤ yearFromDay (dayOf t)) :
    getComparableDate (some t) ("day")
      = some (yearFromDay (dayOf t) * 10000
          + (monthOfDay (dayOf t) * 100 + dateOfDay (dayOf t))) := by
  have hk : comparablePrecision ("day") = 3 := by decide
  simp only [getComparableDate, Option.map_some', hk]
  norm_num
  intro hneg
  omega

/-- Specification-side strict calendar order at a precision: lexicographic
    comparison of the UTC year, month and day fields truncated to the
    precision.  This follows the spec's words and is compared against the
    comparable-based implementation. -/
def specCalendarLt (p : String) (t u : Int) : Bool :=
  if p = "year" then decide (yearFromDay (dayOf t) < yearFromDay (dayOf u))
  else if p = "month" then
    decide (yearFromDay (dayOf t) < yearFromDay (dayOf u) ∨
      (yearFromDay (dayOf t) = yearFromDay (dayOf u) ∧
        monthOfDay (dayOf t) < monthOfDay (dayOf u)))
  else
    decide (yearFromDay (dayOf t) < yearFromDay (dayOf u) ∨
      (yearFromDay (dayOf t) = yearFromDay (dayOf u) ∧
        (monthOfDay (dayOf t) < monthOfDay (dayOf u) ∨
          (monthOfDay (dayOf t) = monthOfDay (dayOf u) ∧
            dateOfDay (dayOf t) < dateOfDay (dayOf u)))))

/-- Specification-side calendar equality at a precision: equality of the UTC
    fields truncated to the precision. -/
def specCalendarEq (p : String) (t u : Int) : Bool :=
  if p = "year" then decide (yearFromDay (dayOf t) = yearFromDay (dayOf u))
  else if p = "month" then
    decide (yearFromDay (dayOf t) = yearFromDay (dayOf u) ∧
      monthOfDay (dayOf t) = monthOfDay (dayOf u))
  else
    decide (yearFromDay (dayOf t) = yearFromDay (dayOf u) ∧
      monthOfDay (dayOf t) = monthOfDay (dayOf u) ∧
      dateOfDay (dayOf t) = dateOfDay (dayOf u))

theorem jsCompare_some_ge (a b : Int) :
    jsCompare (">=") (some a) (some b) = decide (a ≥ b) := rfl

theorem jsCompare_some_gt (a b : Int) :
    jsCompare (">") (some a) (some b) = decide (a > b) := rfl

theorem jsCompare_some_lt (a b : Int) :
    jsCompare ("<") (some a) (some b) = decide (a < b) := rfl

theorem jsCompare_some_le (a b : Int) :
    jsCompare ("<=") (some a) (some b) = decide (a ≤ b) := rfl

theorem jsCompare_some_eqq (a b : Int) :
    jsCompare ("===") (some a) (some b) = (a == b) := rfl

theorem specCalendarLt_year_eq (t u : Int) :
    specCalendarLt ("year") t u
      = decide (yearFromDay (dayOf t) < yearFromDay (dayOf u)) := rfl

theorem specCalendarLt_month_eq (t u : Int) :
    specCalendarLt ("month") t u
      = decide (yearFromDay (dayOf t) < yearFromDay (dayOf u) ∨
          (yearFromDay (dayOf t) = yearFromDay (dayOf u) ∧
            monthOfDay (dayOf t) < monthOfDay (dayOf u))) := rfl

theorem specCalendarLt_day_eq (t u : Int) :
    specCalendarLt ("day") t u
      = decide (yearFromDay (dayOf t) < yearFromDay (dayOf u) ∨
          (yearFromDay (dayOf t) = yearFromDay (dayOf u) ∧
            (monthOfDay (dayOf t) < monthOfDay (dayOf u) ∨
              (monthOfDay (dayOf t) = monthOfDay (dayOf u) ∧
                dateOfDay (dayOf t) < dateOfDay (dayOf u))))) := rfl

theorem specCalendarEq_year_eq (t u : Int) :
    specCalendarEq ("year") t u
      = decide (yearFromDay (dayOf t) = yearFromDay (dayOf u)) := rfl

theorem specCalendarEq_month_eq (t u : Int) :
    specCalendarEq ("month") t u
      = decide (yearFromDay (dayOf t) = yearFromDay (dayOf u) ∧
          monthOfDay (dayOf t) = monthOfDay (dayOf u)) := rfl

theorem specCalendarEq_day_eq (t u : Int) :
    specCalendarEq ("day") t u
      = decide (yearFromDay (dayOf t) = yearFromDay (dayOf u) ∧
          monthOfDay (dayOf t) = monthOfDay (dayOf u) ∧
          dateOfDay (dayOf t) = dateOfDay (dayOf u)) := rfl

theorem bool_eq_of_iff {a b : Bool} (h : a = true ↔ b = true) : a = b := by
  cases a <;> cases b <;> simp_all

/-- Claim C3 (amended): when both Date Values hold valid instants with
    nonnegative UTC years, the padded-concatenation comparable is monotonic
    with calendar order at each precision, so `is` with `>=`, `>`, `<`, `<=`
    returns exactly the corresponding truncated-lexicographic calendar
    comparison; and for all years — negative ones included —
    `is('=', other, 'year')` is true iff the UTC years agree.  For negative
    UTC years the minus sign prefixes the whole concatenated string,
    reversing the month/day ordering — see the counterexample. -/
theorem c3_comparable_order (tx ty : Int)
    (p : String) (hp : p = "year" ∨ p = "month" ∨ p = "day") :
    (0 ≤ yearFromDay (dayOf tx) → 0 ≤ yearFromDay (dayOf ty) →
      ((XBDate.mk (some tx)).is (">") (XBDate.mk (some ty)) p = specCalendarLt p ty tx) ∧
      ((XBDate.mk (some tx)).is (">=") (XBDate.mk (some ty)) p
        = (specCalendarLt p ty tx || specCalendarEq p tx ty)) ∧
      ((XBDate.mk (some tx)).is ("<") (XBDate.mk (some ty)) p = specCalendarLt p tx ty) ∧
      ((XBDate.mk (some tx)).is ("<=") (XBDate.mk (some ty)) p
        = (specCalendarLt p tx ty || specCalendarEq p tx ty))) ∧
    ((XBDate.mk (some tx)).is ("=") (XBDate.mk (some ty)) ("year") = true
      ↔ yearFromDay (dayOf tx) = yearFromDay (dayOf ty)) := by
  have sgt : getSafeOperator (">") = ">" := by decide
  have sge : getSafeOperator (">=") = ">=" := by decide
  have slt : getSafeOperator ("<") = "<" := by decide
  have sle : getSafeOperator ("<=") = "<=" := by decide
  have seq : getSafeOperator ("=") = "===" := by decide
  have hyear : (XBDate.mk (some tx)).is ("=") (XBDate.mk (some ty)) ("year") = true
      ↔ yearFromDay (dayOf tx) = yearFromDay (dayOf ty) := by
    show jsCompare (getSafeOperator ("=")) (getComparableDate (some tx) ("year"))
      (getComparableDate (some ty) ("year")) = true ↔ _
    rw [seq, comparable_some_year, comparable_some_year, jsCompare_some_eqq, beq_iff_eq]
  refine ⟨fun hx hy => ?_, hyear⟩
  have bmx := monthOfDay_bounds (dayOf tx)
  have bmy := monthOfDay_bounds (dayOf ty)
  have bdx := dateOfDay_bounds (dayOf tx)
  have bdy := dateOfDay_bounds (dayOf ty)
  rcases hp with hp | hp | hp <;> subst hp
  · refine ⟨?_, ?_, ?_, ?_⟩
    · show jsCompare (getSafeOperator (">")) (getComparableDate (some tx) ("year"))
        (getComparableDate (some ty) ("year")) = _
      rw [sgt, comparable_some_year, comparable_some_year, jsCompare_some_gt,
        specCalendarLt_year_eq, decide_eq_decide]
    · show jsCompare (getSafeOperator (">=")) (getComparableDate (some tx) ("year"))
        (getComparableDate (some ty) ("year")) = _
      rw [sge, comparable_some_year, comparable_some_year, jsCompare_some_ge,
        specCalendarLt_year_eq, specCalendarEq_year_eq]
      apply bool_eq_of_iff
      simp only [Bool.or_eq_true, decide_eq_true_eq]
      omega
    · show jsCompare (getSafeOperator ("<")) (getComparableDate (some tx) ("year"))
        (getComparableDate (some ty) ("year")) = _
      rw [slt, comparable_some_year, comparable_some_year, jsCompare_some_lt,
        specCalendarLt_year_eq, decide_eq_decide]
    · show jsCompare (getSafeOperator ("<=")) (getComparableDate (some tx) ("year"))
        (getComparableDate (some ty) ("year")) = _
      rw [sle, comparable_some_year, comparable_some_year, jsCompare_some_le,
        specCalendarLt_year_eq, specCalendarEq_year_eq]
      apply bool_eq_of_iff
      simp only [Bool.or_eq_true, decide_eq_true_eq]
      omega
  · refine ⟨?_, ?_, ?_, ?_⟩
    · show jsCompare (getSafeOperator (">")) (getComparableDate (some tx) ("month"))
        (getComparableDate (some ty) ("month")) = _
      rw [sgt, comparable_some_month tx hx, comparable_some_month ty hy,
        jsCompare_some_gt, specCalendarLt_month_eq, decide_eq_decide]
      omega
    · show jsCompare (getSafeOperator (">=")) (getComparableDate (some tx) ("month"))
        (getComparableDate (some ty) ("month")) = _
      rw [sge, comparable_some_month tx hx, comparable_some_month ty hy,
        jsCompare_some_ge, specCalendarLt_month_eq, specCalendarEq_month_eq]
      apply bool_eq_of_iff
      simp only [Bool.or_eq_true, decide_eq_true_eq]
      omega
    · show jsCompare (getSafeOperator ("<")) (getComparableDate (some tx) ("month"))
        (getComparableDate (some ty) ("month")) = _
      rw [slt, comparable_some_month tx hx, comparable_some_month ty hy,
        jsCompare_some_lt, specCalendarLt_month_eq, decide_eq_decide]
      omega
    · show jsCompare (getSafeOperator ("<=")) (getComparableDate (some tx) ("month"))
        (getComparableDate (some ty) ("month")) = _
      rw [sle, comparable_some_month tx hx, comparable_some_month ty hy,
        jsCompare_some_le, specCalendarLt_month_eq, specCalendarEq_month_eq]
      apply bool_eq_of_iff
      simp only [Bool.or_eq_true, decide_eq_true_eq]
      omega
  · refine ⟨?_, ?_, ?_, ?_⟩
    · show jsCompare (getSafeOperator (">")) (getComparableDate (some tx) ("day"))
        (getComparableDate (some ty) ("day")) = _
      rw [sgt, comparable_some_day tx hx, comparable_some_day ty hy,
        jsCompare_some_gt, specCalendarLt_day_eq, decide_eq_decide]
      omega
    · show jsCompare (getSafeOperator (">=")) (getComparableDate (some tx) ("day"))
        (getComparableDate (some ty) ("day")) = _
      rw [sge, comparable_some_day tx hx, comparable_some_day ty hy,
        jsCompare_some_ge, specCalendarLt_day_eq, specCalendarEq_day_eq]
      apply bool_eq_of_iff
      simp only [Bool.or_eq_true, decide_eq_true_eq]
      omega
    · show jsCompare (getSafeOperator ("<")) (getComparableDate (some tx) ("day"))
        (getComparableDate (some ty) ("day")) = _
      rw [slt, comparable_some_day tx hx, comparable_some_day ty hy,
        jsCompare_some_lt, specCalendarLt_day_eq, decide_eq_decide]
      omega
    · show jsCompare (getSafeOperator ("<=")) (getComparableDate (some tx) ("day"))
        (getComparableDate (some ty) ("day")) = _
      rw [sle, comparable_some_day tx hx, comparable_some_day ty hy,
        jsCompare_some_le, specCalendarLt_day_eq, specCalendarEq_day_eq]
      apply bool_eq_of_iff
      simp only [Bool.or_eq_true, decide_eq_true_eq]
      omega

/-- Claim C3, witness at 2023-11-14 and 2024-06-01 (noon instants), day
    precision, with the inner nonnegative-year hypotheses discharged. -/
theorem c3_comparable_order_witness :
    (("day" : String) = "year" ∨ ("day" : String) = "month" ∨ ("day" : String) = "day") ∧
    0 ≤ yearFromDay (dayOf 1699963200000) ∧
    0 ≤ yearFromDay (dayOf 1717243200000) ∧
    (((XBDate.mk (some 1699963200000)).is (">") (XBDate.mk (some 1717243200000)) ("day")
        = specCalendarLt ("day") 1717243200000 1699963200000) ∧
      ((XBDate.mk (some 1699963200000)).is (">=") (XBDate.mk (some 1717243200000)) ("day")
        = (specCalendarLt ("day") 1717243200000 1699963200000
            || specCalendarEq ("day") 1699963200000 1717243200000)) ∧
      ((XBDate.mk (some 1699963200000)).is ("<") (XBDate.mk (some 1717243200000)) ("day")
        = specCalendarLt ("day") 1699963200000 1717243200000) ∧
      ((XBDate.mk (some 1699963200000)).is ("<=") (XBDate.mk (some 1717243200000)) ("day")
        = (specCalendarLt ("day") 1699963200000 1717243200000
            || specCalendarEq ("day") 1699963200000 1717243200000))) ∧
    ((XBDate.mk (some 1699963200000)).is ("=") (XBDate.mk (some 1717243200000)) ("year") = true
      ↔ yearFromDay (dayOf 1699963200000) = yearFromDay (dayOf 1717243200000)) :=
  ⟨by decide, by decide, by decide,
    (c3_comparable_order 1699963200000 1717243200000 ("day") (by decide)).1
      (by decide) (by decide),
    (c3_comparable_order 1699963200000 1717243200000 ("day") (by decide)).2⟩

/-- Claim C3, counterexample to the claim as stated: for Date Values in the
    negative year -1 (reachable through the factory, e.g. from the input
    string -000001-01-01T12:00:00Z), January 1 precedes December 31 of the
    same year in calendar order, yet `is('<')` returns false (and `is('>')`
    returns true): `Number("-10001") > Number("-11131")`, because the minus
    sign prefixes the whole padded concatenation. -/
theorem c3_negative_year_counterexample :
    (XBDate.mk (some (daysFromYear (-1) * 86400000 + 43200000))).getYear = some (-1) ∧
    (XBDate.mk (some (daysFromYear (-1) * 86400000 + 43200000))).getMonth = some 0 ∧
    (XBDate.mk (some (daysFromYear (-1) * 86400000 + 43200000))).getDate = some 1 ∧
    (XBDate.mk (some ((daysFromYear (-1) + 364) * 86400000 + 43200000))).getYear = some (-1) ∧
    (XBDate.mk (some ((daysFromYear (-1) + 364) * 86400000 + 43200000))).getMonth = some 11 ∧
    (XBDate.mk (some ((daysFromYear (-1) + 364) * 86400000 + 43200000))).getDate = some 31 ∧
    (XBDate.mk (some (daysFromYear (-1) * 86400000 + 43200000))).is ("<")
      (XBDate.mk (some ((daysFromYear (-1) + 364) * 86400000 + 43200000))) ("day") = false ∧
    (XBDate.mk (some (daysFromYear (-1) * 86400000 + 43200000))).is (">")
      (XBDate.mk (some ((daysFromYear (-1) + 364) * 86400000 + 43200000))) ("day") = true :=
  ⟨by decide, by decide, by decide, by decide, by decide, by decide, by decide, by decide⟩

/-! ### The add helper on day units -/

theorem comparable_day_congr (t u : Int) (h : dayOf t = dayOf u) (p : String) :
    getComparableDate (some t) p = getComparableDate (some u) p := by
  simp only [getComparableDate, Option.map_some', h]

theorem comparable_isSome (t : Int) (p : String) :
    (getComparableDate (some t) p).isSome = true := rfl

theorem jsCompare_eqq_refl (a : Option Int) (h : a.isSome = true) :
    jsCompare ("===") a a = true := by
  cases a with
  | none => simp at h
  | some v => rw [jsCompare_some_eqq]; exact beq_self_eq_true v

theorem addHelper_day (t n : Int)
    (hq1 : ¬ (0 ≤ yearFromDay (dayOf t) ∧ yearFromDay (dayOf t) ≤ 99))
    (hq2 : ¬ (0 ≤ yearFromDay (dayOf t + n) ∧ yearFromDay (dayOf t + n) ≤ 99))
    (hlo : -100000000 ≤ dayOf t + n) (hhi : dayOf t + n < 100000000) :
    (addHelper (some t) DateUnit.day n).utcDate
      = some ((dayOf t + n) * msPerDay + 43200000) := by
  have htod := tod_bounds t
  have hmd : makeDay (fullYearQuirk (yearFromDay (dayOf t) + 0)) (monthOfDay (dayOf t) + 0)
      (dateOfDay (dayOf t) + n) = dayOf t + n := by
    rw [add_zero, add_zero]
    unfold fullYearQuirk
    rw [if_neg hq1, makeDay_day_shift, makeDay_extract]
  have hsum : jsDateUTC (yearFromDay (dayOf t) + 0) (monthOfDay (dayOf t) + 0)
      (dateOfDay (dayOf t) + n)
      (hourFromTime t) (minFromTime t) (secFromTime t) (msFromTime t)
      = some ((dayOf t + n) * msPerDay + t % msPerDay) := by
    unfold jsDateUTC
    rw [timeFields_decomp, hmd]
    exact timeClip_some (by unfold msPerDay at htod ⊢; omega)
      (by unfold msPerDay at htod ⊢; omega)
  have ht2v : ((dayOf t + n) * msPerDay + t % msPerDay).natAbs ≤ 8640000000000000 := by
    unfold msPerDay at htod ⊢
    omega
  have hd2 := timeFields_mul_add (dayOf t + n) (t % msPerDay) htod.1 htod.2.1
  have hend := factory_true_utcDate ((dayOf t + n) * msPerDay + t % msPerDay) ht2v
    (by rw [hd2.1]; exact hhi)
  rw [hd2.1] at hend
  have hmd2 : makeDay (fullYearQuirk (yearFromDay (dayOf t + n))) (monthOfDay (dayOf t + n))
      (dateOfDay (dayOf t + n)) = dayOf t + n := by
    unfold fullYearQuirk
    rw [if_neg hq2, makeDay_extract]
  rw [hmd2] at hend
  show (XBDateFactory (jsDateUTC (yearFromDay (dayOf t) + 0) (monthOfDay (dayOf t) + 0)
      (dateOfDay (dayOf t) + n)
      (hourFromTime t) (minFromTime t) (secFromTime t) (msFromTime t))
      DEFAULT_OPTIONS).utcDate = _
  rw [hsum]
  exact hend

/-- Claim C4 (amended): for every valid Date Value below the maximal
    representable day whose UTC year, and the UTC year of the day shifted by
    `n`, lie outside 0..99 (which `Date.UTC` and the date constructor remap
    to 1900..1999) and whose shifted day stays representable,
    `add({day: n})` followed by `subtract({day: n})` returns a Date Value
    equal to the original at day precision — indeed the noon instant of the
    original day — for every integer `n` in -1000..1000, across month and
    year rollover. -/
theorem c4_add_subtract_roundtrip (t n : Int)
    (hv : t.natAbs ≤ 8640000000000000)
    (hD : dayOf t < 100000000)
    (hn1 : -1000 ≤ n) (hn2 : n ≤ 1000)
    (hlo : -100000000 ≤ dayOf t + n) (hhi : dayOf t + n < 100000000)
    (hq1 : ¬ (0 ≤ yearFromDay (dayOf t) ∧ yearFromDay (dayOf t) ≤ 99))
    (hq2 : ¬ (0 ≤ yearFromDay (dayOf t + n) ∧ yearFromDay (dayOf t + n) ≤ 99)) :
    chainSubtract ((XBDate.mk (some t)).add [(DateUnit.day, n)]) [(DateUnit.day, n)]
      = Except.ok (JSValue.xb (XBDate.mk (some (dayOf t * msPerDay + 43200000)))) ∧
    chainIsSameDay
      (chainSubtract ((XBDate.mk (some t)).add [(DateUnit.day, n)]) [(DateUnit.day, n)])
      (XBDate.mk (some t)) = some true := by
  have ha := addHelper_day t n hq1 hq2 hlo hhi
  have hx1 : addHelper (some t) DateUnit.day n
      = XBDate.mk (some ((dayOf t + n) * msPerDay + 43200000)) := by
    have he : addHelper (some t) DateUnit.day n
        = XBDate.mk ((addHelper (some t) DateUnit.day n).utcDate) := rfl
    rw [he, ha]
  have htf := timeFields_mul_add (dayOf t + n) 43200000 (by norm_num)
    (by unfold msPerDay; norm_num)
  have harith : dayOf ((dayOf t + n) * msPerDay + 43200000) + -1 * n = dayOf t := by
    rw [htf.1]
    ring
  have hDlo := (dayOf_range_of_valid hv).1
  have ha2 := addHelper_day ((dayOf t + n) * msPerDay + 43200000) (-1 * n)
    (by rw [htf.1]; exact hq2)
    (by rw [harith]; exact hq1)
    (by rw [harith]; exact hDlo)
    (by rw [harith]; exact hD)
  rw [harith] at ha2
  have hx2 : addHelper (some ((dayOf t + n) * msPerDay + 43200000)) DateUnit.day (-1 * n)
      = XBDate.mk (some (dayOf t * msPerDay + 43200000)) := by
    have he : addHelper (some ((dayOf t + n) * msPerDay + 43200000)) DateUnit.day (-1 * n)
        = XBDate.mk ((addHelper (some ((dayOf t + n) * msPerDay + 43200000))
            DateUnit.day (-1 * n)).utcDate) := rfl
    rw [he, ha2]
  have hchain : chainSubtract ((XBDate.mk (some t)).add [(DateUnit.day, n)])
      [(DateUnit.day, n)]
      = Except.ok (JSValue.xb (XBDate.mk (some (dayOf t * msPerDay + 43200000)))) := by
    have h1 : (XBDate.mk (some t)).add [(DateUnit.day, n)]
        = Except.ok (JSValue.xb (addHelper (some t) DateUnit.day n)) := rfl
    rw [h1, hx1]
    show Except.ok (JSValue.xb (addHelper (some ((dayOf t + n) * msPerDay + 43200000))
      DateUnit.day (-1 * n))) = _
    rw [hx2]
  refine ⟨hchain, ?_⟩
  rw [hchain]
  show some ((XBDate.mk (some (dayOf t * msPerDay + 43200000))).is ("=")
    (XBDate.mk (some t)) ("day")) = some true
  have htf2 := timeFields_mul_add (dayOf t) 43200000 (by norm_num)
    (by unfold msPerDay; norm_num)
  have hcongr := comparable_day_congr (dayOf t * msPerDay + 43200000) t htf2.1 ("day")
  show some (jsCompare (getSafeOperator ("="))
    (getComparableDate (some (dayOf t * msPerDay + 43200000)) ("day"))
    (getComparableDate (some t) ("day"))) = some true
  rw [show getSafeOperator ("=") = "===" from by decide, hcongr,
    jsCompare_eqq_refl _ (comparable_isSome t ("day"))]

/-- Claim C4, witness: adding then subtracting one day at 2023-12-31 (year
    rollover into 2024-01-01 and back). -/
theorem c4_add_subtract_roundtrip_witness :
    ((daysFromYear 2023 + 364) * 86400000 + 43200000 : Int).natAbs ≤ 8640000000000000 ∧
    dayOf ((daysFromYear 2023 + 364) * 86400000 + 43200000) < 100000000 ∧
    (-1000 ≤ (1 : Int) ∧ (1 : Int) ≤ 1000) ∧
    (-100000000 ≤ dayOf ((daysFromYear 2023 + 364) * 86400000 + 43200000) + 1 ∧
      dayOf ((daysFromYear 2023 + 364) * 86400000 + 43200000) + 1 < 100000000) ∧
    (¬ (0 ≤ yearFromDay (dayOf ((daysFromYear 2023 + 364) * 86400000 + 43200000)) ∧
        yearFromDay (dayOf ((daysFromYear 2023 + 364) * 86400000 + 43200000)) ≤ 99)) ∧
    (¬ (0 ≤ yearFromDay (dayOf ((daysFromYear 2023 + 364) * 86400000 + 43200000) + 1) ∧
        yearFromDay (dayOf ((daysFromYear 2023 + 364) * 86400000 + 43200000) + 1) ≤ 99)) ∧
    (chainSubtract ((XBDate.mk (some ((daysFromYear 2023 + 364) * 86400000 + 43200000))).add
        [(DateUnit.day, 1)]) [(DateUnit.day, 1)]
      = Except.ok (JSValue.xb (XBDate.mk
          (some (dayOf ((daysFromYear 2023 + 364) * 86400000 + 43200000) * msPerDay
            + 43200000)))) ∧
      chainIsSameDay
        (chainSubtract ((XBDate.mk (some ((daysFromYear 2023 + 364) * 86400000
            + 43200000))).add [(DateUnit.day, 1)]) [(DateUnit.day, 1)])
        (XBDate.mk (some ((daysFromYear 2023 + 364) * 86400000 + 43200000))) = some true) :=
  ⟨by decide, by decide, ⟨by decide, by decide⟩, ⟨by decide, by decide⟩, by decide, by decide,
    c4_add_subtract_roundtrip ((daysFromYear 2023 + 364) * 86400000 + 43200000) 1
      (by decide) (by decide) (by decide) (by decide) (by decide) (by decide)
      (by decide) (by decide)⟩

/-- Claim C4, counterexample to the claim as stated: the receiver
    0100-01-01T12:00:00Z is a valid Date Value and n = -1000 lies in the
    claimed range, but the intermediate result lands in year 97, which the
    factory's `Date.UTC` call remaps to 1997, so the round trip ends around
    1999 instead of year 100 — `is('=', original, 'day')` is false. -/
theorem c4_year_remap_counterexample :
    (XBDate.mk (some (daysFromYear 100 * 86400000 + 43200000))).getYear = some 100 ∧
    ((daysFromYear 100 * 86400000 + 43200000 : Int)).natAbs ≤ 8640000000000000 ∧
    (addHelper (some (daysFromYear 100 * 86400000 + 43200000))
      DateUnit.day (-1000)).getYear = some 1997 ∧
    chainIsSameDay
      (chainSubtract ((XBDate.mk (some (daysFromYear 100 * 86400000 + 43200000))).add
        [(DateUnit.day, -1000)]) [(DateUnit.day, -1000)])
      (XBDate.mk (some (daysFromYear 100 * 86400000 + 43200000))) = some false :=
  ⟨by decide, by decide, by decide, by decide⟩

/-! ### The set method -/

theorem cumMonth_one (leap : Bool) : cumMonth leap 1 = 31 := by
  unfold cumMonth cumMonthL
  norm_num

theorem cumMonth_two (leap : Bool) :
    cumMonth leap 2 = 59 + (if leap then 1 else 0) := by
  unfold cumMonth cumMonthL
  norm_num

theorem makeDay_month13 (y d : Int) :
    makeDay y 13 d = daysFromYear (y + 1) + 31 + d - 1 := by
  simp only [makeDay]
  norm_num [cumMonth_one]

theorem jsSetUTCFullYear_same (t : Int) (hv : t.natAbs ≤ 8640000000000000) :
    jsSetUTCFullYear (some t) (some (yearFromDay (dayOf t))) = some t := by
  unfold jsSetUTCFullYear
  simp only [Option.getD_some]
  rw [makeDay_extract]
  rw [show dayOf t * msPerDay + t % msPerDay = t from by unfold dayOf msPerDay; omega]
  exact timeClip_some (by omega) (by omega)

theorem jsSetUTCMonth_same (t : Int) (hv : t.natAbs ≤ 8640000000000000) :
    jsSetUTCMonth (some t) (some (monthOfDay (dayOf t))) = some t := by
  show timeClip (makeDay (yearFromDay (dayOf t)) (monthOfDay (dayOf t))
    (dateOfDay (dayOf t)) * msPerDay + t % msPerDay) = some t
  rw [makeDay_extract]
  rw [show dayOf t * msPerDay + t % msPerDay = t from by unfold dayOf msPerDay; omega]
  exact timeClip_some (by omega) (by omega)

theorem jsSetUTCDate_same (t : Int) (hv : t.natAbs ≤ 8640000000000000) :
    jsSetUTCDate (some t) (some (dateOfDay (dayOf t))) = some t := by
  show timeClip (makeDay (yearFromDay (dayOf t)) (monthOfDay (dayOf t))
    (dateOfDay (dayOf t)) * msPerDay + t % msPerDay) = some t
  rw [makeDay_extract]
  rw [show dayOf t * msPerDay + t % msPerDay = t from by unfold dayOf msPerDay; omega]
  exact timeClip_some (by omega) (by omega)

theorem set_defaults_id (t : Int) (hv : t.natAbs ≤ 8640000000000000) :
    (XBDate.mk (some t)).set ⟨none, none, none⟩ = XBDate.mk (some t) := by
  show XBDate.mk (jsSetUTCDate (jsSetUTCMonth (jsSetUTCFullYear (some t)
      (some (yearFromDay (dayOf t)))) (some (monthOfDay (dayOf t))))
      (some (dateOfDay (dayOf t)))) = XBDate.mk (some t)
  rw [jsSetUTCFullYear_same t hv, jsSetUTCMonth_same t hv, jsSetUTCDate_same t hv]

set_option maxHeartbeats 1600000 in
theorem monthFromDoyL_31_61 (L doy : Int) (hL : L = 0 ∨ L = 1) (h1 : 31 ≤ doy)
    (h2 : doy ≤ 61) : monthFromDoyL L doy = 1 ∨ monthFromDoyL L doy = 2 := by
  unfold monthFromDoyL
  split_ifs <;> omega

theorem daysFromYear_lo_const : -99999800 ≤ daysFromYear (-271820) := by decide

theorem daysFromYear_hi_const : daysFromYear 275760 ≤ 99999800 := by decide

theorem daysFromYear_min_const : daysFromYear (-271821) ≤ -100000000 := by decide

set_option maxHeartbeats 1600000 in
theorem set_month13_getYear (t : Int) (hv : t.natAbs ≤ 8640000000000000)
    (hyhi : yearFromDay (dayOf t) ≤ 275759) :
    ((XBDate.mk (some t)).set ⟨none, some 13, none⟩).getYear
      = some (yearFromDay (dayOf t) + 1) := by
  have htod := tod_bounds t
  have hdb := dateOfDay_bounds (dayOf t)
  have h1 := jsSetUTCFullYear_same t hv
  have hm13 := makeDay_month13 (yearFromDay (dayOf t)) (dateOfDay (dayOf t))
  have hylo : -271821 ≤ yearFromDay (dayOf t) := by
    have hb := (yearFromDay_spec (dayOf t)).2
    have hD := (dayOf_range_of_valid hv).1
    by_contra hcon
    push_neg at hcon
    have hm : daysFromYear (yearFromDay (dayOf t) + 1) ≤ daysFromYear (-271821) :=
      daysFromYear_mono (by omega)
    have hc := daysFromYear_min_const
    omega
  have hBlo : -99999800 ≤ daysFromYear (yearFromDay (dayOf t) + 1) :=
    le_trans daysFromYear_lo_const (daysFromYear_mono (by omega))
  have hBhi : daysFromYear (yearFromDay (dayOf t) + 1) ≤ 99999800 :=
    le_trans (daysFromYear_mono (by omega)) daysFromYear_hi_const
  have h2 : jsSetUTCMonth (some t) (some 13)
      = some ((daysFromYear (yearFromDay (dayOf t) + 1) + 31 + dateOfDay (dayOf t) - 1)
          * msPerDay + t % msPerDay) := by
    show timeClip (makeDay (yearFromDay (dayOf t)) 13 (dateOfDay (dayOf t))
      * msPerDay + t % msPerDay) = _
    rw [hm13]
    exact timeClip_some (by unfold msPerDay at htod ⊢; omega)
      (by unfold msPerDay at htod ⊢; omega)
  have htf2 := timeFields_mul_add
    (daysFromYear (yearFromDay (dayOf t) + 1) + 31 + dateOfDay (dayOf t) - 1)
    (t % msPerDay) htod.1 htod.2.1
  have hy2 : yearFromDay (daysFromYear (yearFromDay (dayOf t) + 1) + 31
      + dateOfDay (dayOf t) - 1) = yearFromDay (dayOf t) + 1 := by
    rw [show daysFromYear (yearFromDay (dayOf t) + 1) + 31 + dateOfDay (dayOf t) - 1
      = daysFromYear (yearFromDay (dayOf t) + 1) + (dateOfDay (dayOf t) + 30) from by ring]
    exact yearFromDay_of_doy (by omega) (by split_ifs <;> omega)
  have hdwy2 : dayWithinYear (daysFromYear (yearFromDay (dayOf t) + 1) + 31
      + dateOfDay (dayOf t) - 1) = dateOfDay (dayOf t) + 30 := by
    unfold dayWithinYear
    rw [hy2]
    ring
  have hmo2b := monthOfDay_bounds (daysFromYear (yearFromDay (dayOf t) + 1) + 31
    + dateOfDay (dayOf t) - 1)
  have hmo2 : monthOfDay (daysFromYear (yearFromDay (dayOf t) + 1) + 31
      + dateOfDay (dayOf t) - 1) = 1 ∨
      monthOfDay (daysFromYear (yearFromDay (dayOf t) + 1) + 31
        + dateOfDay (dayOf t) - 1) = 2 := by
    unfold monthOfDay
    rw [hy2, hdwy2]
    unfold monthFromDoy
    exact monthFromDoyL_31_61 _ _ (by split_ifs <;> norm_num) (by omega) (by omega)
  have hcum2 : 0 ≤ cumMonth (isLeap (yearFromDay (dayOf t) + 1))
        (monthOfDay (daysFromYear (yearFromDay (dayOf t) + 1) + 31
          + dateOfDay (dayOf t) - 1)) ∧
      cumMonth (isLeap (yearFromDay (dayOf t) + 1))
        (monthOfDay (daysFromYear (yearFromDay (dayOf t) + 1) + 31
          + dateOfDay (dayOf t) - 1)) ≤ 60 := by
    rcases hmo2 with h | h <;> rw [h]
    · rw [cumMonth_one]
      omega
    · rw [cumMonth_two]
      split_ifs <;> omega
  have h3 : jsSetUTCDate (some ((daysFromYear (yearFromDay (dayOf t) + 1) + 31
        + dateOfDay (dayOf t) - 1) * msPerDay + t % msPerDay))
      (some (dateOfDay (dayOf t)))
      = some ((daysFromYear (yearFromDay (dayOf t) + 1)
          + cumMonth (isLeap (yearFromDay (dayOf t) + 1))
            (monthOfDay (daysFromYear (yearFromDay (dayOf t) + 1) + 31
              + dateOfDay (dayOf t) - 1))
          + dateOfDay (dayOf t) - 1) * msPerDay + t % msPerDay) := by
    show timeClip (makeDay
      (yearFromDay (dayOf ((daysFromYear (yearFromDay (dayOf t) + 1) + 31
        + dateOfDay (dayOf t) - 1) * msPerDay + t % msPerDay)))
      (monthOfDay (dayOf ((daysFromYear (yearFromDay (dayOf t) + 1) + 31
        + dateOfDay (dayOf t) - 1) * msPerDay + t % msPerDay)))
      (dateOfDay (dayOf t)) * msPerDay
      + ((daysFromYear (yearFromDay (dayOf t) + 1) + 31 + dateOfDay (dayOf t) - 1)
        * msPerDay + t % msPerDay) % msPerDay) = _
    rw [htf2.1, htf2.2.1]
    rw [makeDay_eq_of_month _ _ _ hmo2b.1 hmo2b.2]
    rw [hy2]
    exact timeClip_some (by unfold msPerDay at htod ⊢; omega)
      (by unfold msPerDay at htod ⊢; omega)
  have hy3 : yearFromDay (daysFromYear (yearFromDay (dayOf t) + 1)
      + cumMonth (isLeap (yearFromDay (dayOf t) + 1))
        (monthOfDay (daysFromYear (yearFromDay (dayOf t) + 1) + 31
          + dateOfDay (dayOf t) - 1))
      + dateOfDay (dayOf t) - 1) = yearFromDay (dayOf t) + 1 := by
    rw [show daysFromYear (yearFromDay (dayOf t) + 1)
        + cumMonth (isLeap (yearFromDay (dayOf t) + 1))
          (monthOfDay (daysFromYear (yearFromDay (dayOf t) + 1) + 31
            + dateOfDay (dayOf t) - 1))
        + dateOfDay (dayOf t) - 1
      = daysFromYear (yearFromDay (dayOf t) + 1)
        + (cumMonth (isLeap (yearFromDay (dayOf t) + 1))
            (monthOfDay (daysFromYear (yearFromDay (dayOf t) + 1) + 31
              + dateOfDay (dayOf t) - 1)) + dateOfDay (dayOf t) - 1) from by ring]
    exact yearFromDay_of_doy (by omega) (by split_ifs <;> omega)
  have htf3 := timeFields_mul_add
    (daysFromYear (yearFromDay (dayOf t) + 1)
      + cumMonth (isLeap (yearFromDay (dayOf t) + 1))
        (monthOfDay (daysFromYear (yearFromDay (dayOf t) + 1) + 31
          + dateOfDay (dayOf t) - 1))
      + dateOfDay (dayOf t) - 1)
    (t % msPerDay) htod.1 htod.2.1
  have hfinal : (XBDate.mk (some t)).set ⟨none, some 13, none⟩
      = XBDate.mk (some ((daysFromYear (yearFromDay (dayOf t) + 1)
          + cumMonth (isLeap (yearFromDay (dayOf t) + 1))
            (monthOfDay (daysFromYear (yearFromDay (dayOf t) + 1) + 31
              + dateOfDay (dayOf t) - 1))
          + dateOfDay (dayOf t) - 1) * msPerDay + t % msPerDay)) := by
    show XBDate.mk (jsSetUTCDate (jsSetUTCMonth (jsSetUTCFullYear (some t)
        (some (yearFromDay (dayOf t)))) (some 13))
        (some (dateOfDay (dayOf t)))) = _
    rw [h1, h2, h3]
  rw [hfinal]
  simp only [XBDate.getYear, Option.map_some']
  rw [htf3.1, hy3]

/-- Claim C6 (amended): for every valid receiver, `set` builds its new field
    values from the receiver's current UTC fields, overridden by the present
    entries of `values` (omitted fields default to the current values: with
    all fields omitted the receiver's instant is unchanged), mutates the
    receiver's instant through the three UTC setters and returns the
    receiver; `set({month: 13})` rolls over into the following year for
    every valid receiver except one in the final representable year 275760,
    where the rolled-over instant exceeds the Date range and the receiver is
    clipped to an Invalid Date instead — see the counterexample. -/
theorem c6_set_semantics (t : Int) (hv : t.natAbs ≤ 8640000000000000) :
    ((XBDate.mk (some t)).set ⟨none, none, none⟩ = XBDate.mk (some t)) ∧
    (yearFromDay (dayOf t) ≤ 275759 →
      ((XBDate.mk (some t)).set ⟨none, some 13, none⟩).getYear
        = some (yearFromDay (dayOf t) + 1)) :=
  ⟨set_defaults_id t hv, fun hyhi => set_month13_getYear t hv hyhi⟩

/-- Claim C6, witness at 2023-11-14T12:00:00Z: `set({})` is the identity and
    `set({month: 13})` lands in 2024. -/
theorem c6_set_semantics_witness :
    (1699963200000 : Int).natAbs ≤ 8640000000000000 ∧
    yearFromDay (dayOf 1699963200000) ≤ 275759 ∧
    (((XBDate.mk (some 1699963200000)).set ⟨none, none, none⟩
        = XBDate.mk (some 1699963200000)) ∧
      (((XBDate.mk (some 1699963200000)).set ⟨none, some 13, none⟩).getYear
        = some (yearFromDay (dayOf 1699963200000) + 1))) :=
  ⟨by decide, by decide,
    (c6_set_semantics 1699963200000 (by decide)).1,
    (c6_set_semantics 1699963200000 (by decide)).2 (by decide)⟩

/-- Claim C6, counterexample to the claim as stated: on 275760-01-01T12:00Z
    (a valid Date Value in the last representable year) `set({month: 13})`
    does not roll into the following year — the target instant exceeds the
    Date range, `TimeClip` yields NaN, and the receiver becomes an Invalid
    Date whose year is NaN. -/
theorem c6_set_overflow_counterexample :
    (daysFromYear 275760 * 86400000 + 43200000 : Int).natAbs ≤ 8640000000000000 ∧
    (XBDate.mk (some (daysFromYear 275760 * 86400000 + 43200000))).getYear
      = some 275760 ∧
    ((XBDate.mk (some (daysFromYear 275760 * 86400000 + 43200000))).set
      ⟨none, some 13, none⟩).getYear = none :=
  ⟨by decide, by decide, by decide⟩

theorem list_any_apply (cs : List Constraint) (d : XBDate) :
    (cs.map getConstraintEvaluator).any (fun evaluator => evaluator d)
      = cs.any (fun c => getConstraintEvaluator c d) := by
  induction cs with
  | nil => rfl
  | cons a l ih => simp only [List.map_cons, List.any_cons, ih]

/-- Claim C10 (amended): `matches` never hands the receiver to the
    evaluators — it rebuilds a fresh Date Value from the receiver's instant
    with default options, so for every valid receiver instant below the
    maximal representable day (even one constructed with `normalize: false`)
    the value every evaluator observes carries the time of day 12:00:00.000
    UTC.  The receiver's own state is only read.  (For the single maximal
    valid instant the fresh value is an Invalid Date instead — see the
    counterexample.) -/
theorem c10_matches_defensive_copy (t : Int) (hv : t.natAbs ≤ 8640000000000000)
    (hD : dayOf t < 100000000) (cs : List Constraint) :
    ((XBDate.mk (some t)).matches cs
      = cs.any (fun c => getConstraintEvaluator c (XBDateFactory (some t) DEFAULT_OPTIONS))) ∧
    (XBDateFactory (some t) DEFAULT_OPTIONS).getHours = some 12 ∧
    (XBDateFactory (some t) DEFAULT_OPTIONS).getMinutes = some 0 ∧
    (XBDateFactory (some t) DEFAULT_OPTIONS).getSeconds = some 0 ∧
    (XBDateFactory (some t) DEFAULT_OPTIONS).utcDate.map msFromTime = some 0 := by
  have hf := factory_true_fields t hv hD
  refine ⟨?_, hf.1, hf.2.1, hf.2.2.1, hf.2.2.2⟩
  unfold XBDate.matches
  cases cs with
  | nil => rfl
  | cons a l =>
      rw [if_neg (by simp)]
      dsimp only
      exact list_any_apply (a :: l) _

/-- Claim C10, witness with a receiver whose own time of day is 22:13:20
    (constructed unnormalized) and a single-date constraint. -/
theorem c10_matches_defensive_copy_witness :
    (1700000000000 : Int).natAbs ≤ 8640000000000000 ∧
    dayOf (1700000000000 : Int) < 100000000 ∧
    (((XBDate.mk (some 1700000000000)).matches [Constraint.single (some 0)]
      = ([Constraint.single (some 0)]).any
          (fun c => getConstraintEvaluator c (XBDateFactory (some 1700000000000) DEFAULT_OPTIONS))) ∧
    (XBDateFactory (some 1700000000000) DEFAULT_OPTIONS).getHours = some 12 ∧
    (XBDateFactory (some 1700000000000) DEFAULT_OPTIONS).getMinutes = some 0 ∧
    (XBDateFactory (some 1700000000000) DEFAULT_OPTIONS).getSeconds = some 0 ∧
    (XBDateFactory (some 1700000000000) DEFAULT_OPTIONS).utcDate.map msFromTime = some 0) :=
  ⟨by decide, by decide,
    c10_matches_defensive_copy 1700000000000 (by decide) (by decide)
      [Constraint.single (some 0)]⟩

/-- Claim C10, counterexample to the claim as stated: a receiver constructed
    with `normalize: false` from the maximal valid instant holds a valid
    instant, but the fresh default-options value that `matches` passes to the
    evaluators is an Invalid Date — its hour is NaN, not 12. -/
theorem c10_max_instant_counterexample :
    (XBDateFactory (some 8640000000000000) ⟨false⟩).utcDate = some 8640000000000000 ∧
    (XBDateFactory ((XBDateFactory (some 8640000000000000) ⟨false⟩).utcDate)
      DEFAULT_OPTIONS).getHours = none :=
  ⟨by decide, by decide⟩
